import Mathlib

/-!
Verification development for the BradBid matching-engine repository.

The definitions below are a shallow embedding of the Python sources:
  * `src/backend/matcher/lambda_function.py` (namespace `Matcher`)
  * `src/backend/ingest/lambda_function.py`  (namespace `Ingest`)

Modelling conventions:
  * Python `float` values are modelled exactly.  The validator only parses
    and compares numbers (it never does arithmetic), so an exact
    representation `PyFloat` (NaN / +inf / -inf / finite rational) is
    faithful at every comparison the code performs.  The matcher core works
    on finite values only, modelled as `Rat`; all concrete inputs used in
    theorems are dyadic rationals, on which binary64 arithmetic is exact.
    Binary64 rounding of extreme decimal literals (underflow below about
    1e-323, overflow above about 1.8e308, and `_` digit separators) is not
    modelled.
  * The Redis order book for one trading pair is modelled by `Books`:
    the two sorted sets `orderbook:{pair}:BUY` / `orderbook:{pair}:SELL`
    become the lists `buys` / `sells` of members.  A sorted-set member is
    the JSON serialization of the order dict; since that serialization is
    injective on the order fields, members are modelled by `Order` values
    and the byte-wise member comparison Redis uses to break score ties is
    modelled by comparing `serializeOrder` strings.  A member's score is
    `float(order['price'])` at `zadd` time, and every code path stores a
    member whose `price` field equals its score, so the model uses
    `Order.price` as the score.
  * External effects (DynamoDB, SQS/Kinesis, logging) are modelled as
    explicit effect lists, with Boolean oracles deciding whether each
    fallible call raises.
-/

namespace BradBid

/-- Exact model of a Python `float` value: NaN, the two infinities, or a
finite value represented as a rational. -/
inductive PyFloat where
  | nan : PyFloat
  | inf : PyFloat
  | ninf : PyFloat
  | fin : Rat → PyFloat
deriving DecidableEq, Repr

/-- IEEE comparison `x <= 0` as Python evaluates it: false for NaN and
+inf, true for -inf, and the rational comparison for finite values. -/
def pyLe0 : PyFloat → Bool
  | PyFloat.nan => false
  | PyFloat.inf => false
  | PyFloat.ninf => true
  | PyFloat.fin q => decide (q ≤ 0)

/-- A JSON value as it appears in a decoded request body: a number (which
Python's `json.loads` may also produce as NaN/Infinity), a string, a
boolean, or null. -/
inductive JVal where
  | num : PyFloat → JVal
  | str : String → JVal
  | bool : Bool → JVal
  | null : JVal
deriving DecidableEq, Repr

/-- Value of a run of decimal digit characters. -/
def digitsVal (cs : List Char) : Nat :=
  cs.foldl (fun a c => a * 10 + (c.toNat - 48)) 0

/-- All characters are decimal digits. -/
def isDigits (cs : List Char) : Bool :=
  cs.all Char.isDigit

/-- Exponent part of a Python float literal: optional sign then digits. -/
def parseExpPart (cs : List Char) : Option Int :=
  match cs with
  | '+' :: rest =>
      if !rest.isEmpty && isDigits rest then some (digitsVal rest : Int) else none
  | '-' :: rest =>
      if !rest.isEmpty && isDigits rest then some (-(digitsVal rest : Int)) else none
  | rest =>
      if !rest.isEmpty && isDigits rest then some (digitsVal rest : Int) else none

/-- Mantissa of a Python float literal: digits with an optional dot;
`"1."` and `".5"` are valid, `"."` and `""` are not. -/
def parseMantissa (cs : List Char) : Option Rat :=
  match cs.splitOn '.' with
  | [ip] =>
      if !ip.isEmpty && isDigits ip then some (digitsVal ip : Rat) else none
  | [ip, fp] =>
      if (!ip.isEmpty || !fp.isEmpty) && isDigits ip && isDigits fp then
        some ((digitsVal ip : Rat) + (digitsVal fp : Rat) / (10 : Rat) ^ fp.length)
      else none
  | _ => none

/-- Unsigned Python float literal: mantissa with optional `e` exponent
(input already lower-cased). -/
def parseUnsigned (cs : List Char) : Option Rat :=
  match cs.splitOn 'e' with
  | [m] => parseMantissa m
  | [m, e] =>
      match parseMantissa m, parseExpPart e with
      | some q, some z => some (q * (10 : Rat) ^ z)
      | _, _ => none
  | _ => none

/-- Core of `float(str)` after trimming and lower-casing: the special
literals `inf` / `infinity` / `nan`, or a decimal literal. -/
def parseFloatCore (l : List Char) (neg : Bool) : Option PyFloat :=
  if l = ['i', 'n', 'f'] ∨ l = ['i', 'n', 'f', 'i', 'n', 'i', 't', 'y'] then
    some (if neg then PyFloat.ninf else PyFloat.inf)
  else if l = ['n', 'a', 'n'] then
    some PyFloat.nan
  else
    match parseUnsigned l with
    | some q => some (PyFloat.fin (if neg then -q else q))
    | none => none

/-- Python `float(s)` on a string: strip whitespace, optional sign, then
a float literal; `none` models the `ValueError`. -/
def parseFloatStr (s : String) : Option PyFloat :=
  match s.trim.toList.map Char.toLower with
  | '+' :: rest => parseFloatCore rest false
  | '-' :: rest => parseFloatCore rest true
  | rest => parseFloatCore rest false

/-- Python `float(x)` on a JSON value; `none` models `ValueError` or
`TypeError` (a Python bool is an int, so `float(True) = 1.0`). -/
def floatOf : JVal → Option PyFloat
  | JVal.num x => some x
  | JVal.str s => parseFloatStr s
  | JVal.bool b => some (PyFloat.fin (if b then 1 else 0))
  | JVal.null => none

/-- ASCII upper-casing of one character, as Python `str.upper` acts on the
ASCII payloads used here. -/
def upperChar (c : Char) : Char :=
  if 'a' ≤ c ∧ c ≤ 'z' then Char.ofNat (c.toNat - 32) else c

/-- Python `s.upper()` for ASCII strings. -/
def upperStr (s : String) : String :=
  String.mk (s.data.map upperChar)

/-- An order dict as the matcher consumes it from SQS: the fields read by
`process_order` (`pair`, `side`, `price`, `amount`, `orderId`) plus the
optional `userId` that `execute_trade` reads with default `'unknown'`.
`price` and `amount` are the finite floats the matcher works with. -/
structure Order where
  orderId : String
  pair : String
  side : String
  price : Rat
  amount : Rat
  userId : Option String
deriving DecidableEq, Repr

/-- Decimal-free rendering of a rational, standing in for Python's float
`repr` inside the serialized member.  Only lexicographic comparisons of
whole members matter, and for distinct orders those are decided at the
`orderId` field, before any number is reached. -/
def ratStr (q : Rat) : String :=
  toString q.num ++ "/" ++ toString q.den

/-- The `json.dumps(order)` string stored as the Redis sorted-set member,
with the fields in the order they appear in the inbound payload
(`orderId` first, as in every payload in the repository).  Redis breaks
score ties by byte-wise comparison of these strings. -/
def serializeOrder (o : Order) : String :=
  "\x7b\"orderId\": \"" ++ o.orderId ++ "\", \"pair\": \"" ++ o.pair ++
    "\", \"side\": \"" ++ o.side ++ "\", \"price\": " ++ ratStr o.price ++
    ", \"amount\": " ++ ratStr o.amount ++
    (match o.userId with
     | some u => ", \"userId\": \"" ++ u ++ "\""
     | none => "") ++ "\x7d"

/-- A trade record as `execute_trade` builds it (the generated `tradeId`
and wall-clock `timestamp` are not modelled). -/
structure Trade where
  pair : String
  price : Rat
  amount : Rat
  buyOrderId : String
  sellOrderId : String
  buyUserId : String
  sellUserId : String
deriving DecidableEq, Repr

/-- The two Redis sorted sets `orderbook:{pair}:BUY` and
`orderbook:{pair}:SELL` for one trading pair, as lists of members in
insertion order. -/
structure Books where
  buys : List Order
  sells : List Order
deriving DecidableEq, Repr

namespace Matcher

/-- Redis `ZADD key {member: score}`: a new member is added, an existing
member only has its score updated (a no-op here, since the score is
determined by the member's `price` field on every code path). -/
def zadd (l : List Order) (o : Order) : List Order :=
  if o ∈ l then l else l ++ [o]

/-- Strict comparison on the Redis sorted-set key `(score, member)`:
by score first, ties by byte-wise member comparison. -/
def keyLt (a b : Order) : Bool :=
  decide (a.price < b.price) ||
    (decide (a.price = b.price) && decide (serializeOrder a < serializeOrder b))

/-- First element of a score-range query: the member with the least
`(score, member)` key. -/
def zMinEntry : List Order → Option Order
  | [] => none
  | o :: rest =>
      match zMinEntry rest with
      | none => some o
      | some m => if keyLt m o then some m else some o

/-- First element of a reverse score-range query: the member with the
greatest `(score, member)` key. -/
def zMaxEntry : List Order → Option Order
  | [] => none
  | o :: rest =>
      match zMaxEntry rest with
      | none => some o
      | some m => if keyLt o m then some m else some o

/-- `add_to_order_book`: `ZADD orderbook:{pair}:{side.upper()}` with the
order's price as score.  The model keeps the two books of the order's
pair; the upper-cased side selects between them. -/
def add_to_order_book (st : Books) (o : Order) : Books :=
  if upperStr o.side = "BUY" then
    { st with buys := zadd st.buys o }
  else
    { st with sells := zadd st.sells o }

/-- `match_buy_order`: query `ZRANGEBYSCORE orderbook:{pair}:SELL 0
buy_price`, take element `[0]` (least score, ties byte-wise), trade
`min(buy_amount, sell_amount)` at the resting sell's score, then update
the books exactly as the source does: a partially filled maker is
re-added via `ZADD` with its updated amount (the original member is not
removed), a fully filled maker is removed via `ZREM`, and a partially
filled taker is handed to `add_to_order_book`. -/
def match_buy_order (st : Books) (b : Order) : Bool × Books × List Trade :=
  match zMinEntry (st.sells.filter fun m =>
      decide (0 ≤ m.price) && decide (m.price ≤ b.price)) with
  | none => (false, st, [])
  | some m =>
    let tradeAmount := if b.amount ≤ m.amount then b.amount else m.amount
    let t : Trade :=
      { pair := b.pair, price := m.price, amount := tradeAmount,
        buyOrderId := b.orderId, sellOrderId := m.orderId,
        buyUserId := b.userId.getD "unknown",
        sellUserId := m.userId.getD "unknown" }
    let remainingSell := m.amount - tradeAmount
    let sells2 :=
      if 0 < remainingSell then zadd st.sells { m with amount := remainingSell }
      else st.sells.erase m
    let remainingBuy := b.amount - tradeAmount
    let st2 : Books := { st with sells := sells2 }
    let st3 :=
      if 0 < remainingBuy then add_to_order_book st2 { b with amount := remainingBuy }
      else st2
    (true, st3, [t])

/-- `match_sell_order`: query `ZREVRANGEBYSCORE orderbook:{pair}:BUY +inf
sell_price`, take element `[0]` (greatest score, ties reverse byte-wise),
trade at the resting buy's score, with the same book updates as the buy
side. -/
def match_sell_order (st : Books) (s : Order) : Bool × Books × List Trade :=
  match zMaxEntry (st.buys.filter fun m => decide (s.price ≤ m.price)) with
  | none => (false, st, [])
  | some m =>
    let tradeAmount := if s.amount ≤ m.amount then s.amount else m.amount
    let t : Trade :=
      { pair := s.pair, price := m.price, amount := tradeAmount,
        buyOrderId := m.orderId, sellOrderId := s.orderId,
        buyUserId := m.userId.getD "unknown",
        sellUserId := s.userId.getD "unknown" }
    let remainingBuy := m.amount - tradeAmount
    let buys2 :=
      if 0 < remainingBuy then zadd st.buys { m with amount := remainingBuy }
      else st.buys.erase m
    let remainingSell := s.amount - tradeAmount
    let st2 : Books := { st with buys := buys2 }
    let st3 :=
      if 0 < remainingSell then add_to_order_book st2 { s with amount := remainingSell }
      else st2
    (true, st3, [t])

/-- `process_order`: dispatch on `side.upper() == 'BUY'`; when the match
helper reports no match, the original order is added to the book. -/
def process_order (st : Books) (o : Order) : Books × List Trade :=
  if upperStr o.side = "BUY" then
    let r := match_buy_order st o
    if r.1 then (r.2.1, r.2.2) else (add_to_order_book r.2.1 o, r.2.2)
  else
    let r := match_sell_order st o
    if r.1 then (r.2.1, r.2.2) else (add_to_order_book r.2.1 o, r.2.2)

/-- Process a sequence of orders from empty books, collecting the trades
in emission order. -/
def processAll (orders : List Order) : Books × List Trade :=
  orders.foldl (fun acc o =>
    let r := process_order acc.1 o
    (r.1, acc.2 ++ r.2)) (⟨[], []⟩, [])

/-- Total quantity of the trades in which the given order id participated
(as buyer or seller). -/
def tradedQty (oid : String) (ts : List Trade) : Rat :=
  (ts.filter fun t => t.buyOrderId == oid || t.sellOrderId == oid).foldl
    (fun a t => a + t.amount) 0

/-- Total resting quantity recorded in the books for the given order id. -/
def restingQty (oid : String) (st : Books) : Rat :=
  ((st.buys ++ st.sells).filter fun o => o.orderId == oid).foldl
    (fun a o => a + o.amount) 0

/-- An order dict as the matcher receives it from SQS, before the field
reads at the top of `process_order`; absent keys raise `KeyError`. -/
structure RawMatcherOrder where
  orderId : Option String := none
  pair : Option String := none
  side : Option String := none
  price : Option JVal := none
  amount : Option JVal := none
  userId : Option String := none
deriving DecidableEq, Repr

/-- The field reads at the top of `process_order`, in source order
(`pair`, `side`, `price`, `amount`, `orderId`), each raising on a missing
key, followed by the matching core.  Non-finite numeric payloads are not
modelled by the matcher core and are folded into the error case. -/
def process_order_raw (st : Books) (r : RawMatcherOrder) :
    Except String (Books × List Trade) :=
  match r.pair with
  | none => Except.error "KeyError: pair"
  | some pr =>
  match r.side with
  | none => Except.error "KeyError: side"
  | some sd =>
  match r.price with
  | none => Except.error "KeyError: price"
  | some pv =>
  match floatOf pv with
  | some (PyFloat.fin p) =>
    match r.amount with
    | none => Except.error "KeyError: amount"
    | some av =>
    match floatOf av with
    | some (PyFloat.fin a) =>
      match r.orderId with
      | none => Except.error "KeyError: orderId"
      | some oid =>
        Except.ok (process_order st
          { orderId := oid, pair := pr, side := sd, price := p, amount := a,
            userId := r.userId })
    | _ => Except.error "ValueError: amount"
  | _ => Except.error "ValueError: price"

/-- The matcher `lambda_handler` batch loop (with the Redis connection
up): each record is a message id and a decoded body; a record whose
processing raises is left unapplied and reported in
`batchItemFailures`. -/
def lambda_handler (st : Books) (records : List (String × RawMatcherOrder)) :
    Books × List Trade × List String :=
  records.foldl (fun acc rec =>
    match process_order_raw acc.1 rec.2 with
    | Except.ok r => (r.1, acc.2.1 ++ r.2, acc.2.2)
    | Except.error _ => (acc.1, acc.2.1, acc.2.2 ++ [rec.1])) (st, [], [])

/-- One observable side effect of `execute_trade`. -/
inductive Effect where
  | saveDynamo : Trade → Effect
  | sendTrade : Trade → Effect
  | setLastPrice : String → Rat → Effect
deriving DecidableEq, Repr

/-- `execute_trade` at the effect level: `save_trade_to_dynamodb` (which
re-raises on failure), then `send_trade_event`, then the Redis
`lastprice` update.  The Boolean oracles decide whether the two fallible
calls raise; a raise propagates, cutting off the rest of the sequence.
The returned Boolean is true when the whole call returns normally. -/
def execute_trade (saveOk sendOk : Bool) (t : Trade) : List Effect × Bool :=
  if saveOk then
    if sendOk then
      ([Effect.saveDynamo t, Effect.sendTrade t,
        Effect.setLastPrice t.pair t.price], true)
    else
      ([Effect.saveDynamo t], false)
  else
    ([], false)

end Matcher

namespace Ingest

/-- A decoded request body for the ingest validator: the five fields the
validator reads, plus the `timestamp` and `order_type` keys that may be
present (`order_type` is never read by `validate_order`). -/
structure RawOrder where
  orderId : Option JVal := none
  symbol : Option JVal := none
  side : Option JVal := none
  quantity : Option JVal := none
  price : Option JVal := none
  timestamp : Option JVal := none
  order_type : Option JVal := none
deriving DecidableEq, Repr

/-- `validate_order` from the ingest function: required-field checks in
list order (`orderId`, `symbol`, `side`, `quantity`, `price`), then the
side membership test, then `float()` conversion of quantity and price
with the `<= 0` rejections, then the symbol string check. -/
def validate_order (o : RawOrder) : Bool × String :=
  match o.orderId with
  | none => (false, "Missing required field: orderId")
  | some _ =>
  match o.symbol with
  | none => (false, "Missing required field: symbol")
  | some sy =>
  match o.side with
  | none => (false, "Missing required field: side")
  | some sd =>
  match o.quantity with
  | none => (false, "Missing required field: quantity")
  | some qv =>
  match o.price with
  | none => (false, "Missing required field: price")
  | some pv =>
  if !(sd == JVal.str "BUY" || sd == JVal.str "SELL") then
    (false, "side must be BUY or SELL")
  else
    match floatOf qv with
    | none => (false, "quantity and price must be numeric")
    | some q =>
      match floatOf pv with
      | none => (false, "quantity and price must be numeric")
      | some p =>
        if pyLe0 q then (false, "quantity must be positive")
        else if pyLe0 p then (false, "price must be positive")
        else
          match sy with
          | JVal.str s =>
              if s.trim = "" then (false, "symbol must be a non-empty string")
              else (true, "OK")
          | _ => (false, "symbol must be a non-empty string")

/-- Acceptance predicate of the amended claim C8, stated in the amended
claim's own terms: all five fields present, side exactly `BUY` or `SELL`,
quantity and price convert by `float()` (native numbers or numeric
strings) and are not `<= 0` under IEEE comparison — so positive finite
values are accepted, non-positive values (including -inf) and non-numeric
values are rejected, and NaN and +inf are accepted — and the symbol is a
string that is non-empty after trimming. -/
def validate_accepts_amended (o : RawOrder) : Bool :=
  o.orderId.isSome &&
  (match o.symbol with
   | some (JVal.str s) => !(s.trim == "")
   | _ => false) &&
  (match o.side with
   | some sd => sd == JVal.str "BUY" || sd == JVal.str "SELL"
   | none => false) &&
  (match o.quantity.bind floatOf with
   | some q => !pyLe0 q
   | none => false) &&
  (match o.price.bind floatOf with
   | some p => !pyLe0 p
   | none => false)

/-- Python truthiness of a JSON value, as used by the handler's
`not body['orderId']` test. -/
def jvalFalsy : JVal → Bool
  | JVal.str s => s == ""
  | JVal.num x =>
      match x with
      | PyFloat.fin q => q == 0
      | _ => false
  | JVal.bool b => !b
  | JVal.null => true

/-- Response of the ingest handler: the HTTP status code and, on success,
the `orderId` echoed in the response body. -/
structure IngestResponse where
  statusCode : Nat
  orderIdInBody : Option JVal
deriving DecidableEq, Repr

/-- One observable side effect of the ingest handler. -/
inductive IngestEffect where
  | kinesisPut : Option JVal → Option JVal → IngestEffect
  | dynamoPut : JVal → IngestEffect
  | logDynamoFailure : IngestEffect
deriving DecidableEq, Repr

/-- The ingest `lambda_handler` from the decoded body onward: validation
(400 on failure), `orderId` defaulting, the Kinesis put (a raise falls
through to the generic handler and returns 500), then — when the audit
table is configured — the DynamoDB put inside its own try/except, whose
failure is only logged; finally the 200 response carrying the order id.
`body = none` models a JSON decode failure (400). -/
def lambda_handler (body : Option RawOrder) (genId : String)
    (tableSet kinesisOk dynamoOk : Bool) : IngestResponse × List IngestEffect :=
  match body with
  | none => ({ statusCode := 400, orderIdInBody := none }, [])
  | some b =>
    if (validate_order b).1 = false then
      ({ statusCode := 400, orderIdInBody := none }, [])
    else
      let oid : JVal :=
        match b.orderId with
        | some j => if jvalFalsy j then JVal.str genId else j
        | none => JVal.str genId
      if kinesisOk then
        let auditEffects :=
          if tableSet then
            if dynamoOk then [IngestEffect.dynamoPut oid]
            else [IngestEffect.dynamoPut oid, IngestEffect.logDynamoFailure]
          else []
        ({ statusCode := 200, orderIdInBody := some oid },
          IngestEffect.kinesisPut b.symbol b.side :: auditEffects)
      else
        ({ statusCode := 500, orderIdInBody := none },
          [IngestEffect.kinesisPut b.symbol b.side])

end Ingest

/-! Concrete instances used by the theorems below. -/

/-- Scenario S4, first resting sell: `sell limit 0.3 @ 100`. -/
def s4Sell1 : Order :=
  { orderId := "S1", pair := "BTCUSD", side := "SELL", price := 100, amount := 3/10, userId := none }

/-- Scenario S4, second resting sell: `sell limit 0.5 @ 101`. -/
def s4Sell2 : Order :=
  { orderId := "S2", pair := "BTCUSD", side := "SELL", price := 101, amount := 5/10, userId := none }

/-- Scenario S4, third resting sell: `sell limit 0.4 @ 102`. -/
def s4Sell3 : Order :=
  { orderId := "S3", pair := "BTCUSD", side := "SELL", price := 102, amount := 4/10, userId := none }

/-- Scenario S4 taker: `buy limit 1.0 @ 102`. -/
def s4Buy : Order :=
  { orderId := "B1", pair := "BTCUSD", side := "BUY", price := 102, amount := 1, userId := none }

/-- Resting maker for the duplicate-submission input: `sell limit 1.0 @ 100`. -/
def dupSell : Order :=
  { orderId := "M", pair := "BTCUSD", side := "SELL", price := 100, amount := 1, userId := none }

/-- The order submitted twice with the same `order_id`: `buy limit 1.0 @ 100`. -/
def dupBuy : Order :=
  { orderId := "X", pair := "BTCUSD", side := "BUY", price := 100, amount := 1, userId := none }

/-- Maker for the conservation input: `sell limit 1.0 @ 100`. -/
def consSell : Order :=
  { orderId := "M", pair := "BTCUSD", side := "SELL", price := 100, amount := 1, userId := none }

/-- Taker for the conservation input: `buy limit 0.25 @ 100` (a dyadic
quantity, on which binary64 arithmetic is exact). -/
def consBuy : Order :=
  { orderId := "T", pair := "BTCUSD", side := "BUY", price := 100, amount := 1/4, userId := none }

/-- Time-priority order A, submitted first, with an order id whose
serialization sorts high: `sell limit 1.0 @ 100`. -/
def tieA : Order :=
  { orderId := "ZZZ", pair := "BTCUSD", side := "SELL", price := 100, amount := 1, userId := none }

/-- Time-priority order B, submitted second, with an order id whose
serialization sorts low: `sell limit 1.0 @ 100`. -/
def tieB : Order :=
  { orderId := "AAA", pair := "BTCUSD", side := "SELL", price := 100, amount := 1, userId := none }

/-- Time-priority taker: `buy limit 1.0 @ 100`. -/
def tieTaker : Order :=
  { orderId := "T", pair := "BTCUSD", side := "BUY", price := 100, amount := 1, userId := none }

/-- A market buy for 1.0 as the matcher receives it: all keys except
`price`, which a market order does not carry. -/
def mktRaw : Matcher.RawMatcherOrder :=
  { orderId := some "X", pair := some "BTCUSD", side := some "BUY",
    amount := some (JVal.num (PyFloat.fin 1)) }

/-- A fully valid ingest body. -/
def vOk : Ingest.RawOrder :=
  { orderId := some (JVal.str "test-1"), symbol := some (JVal.str "BTC-USD"),
    side := some (JVal.str "BUY"), quantity := some (JVal.num (PyFloat.fin (3/2))),
    price := some (JVal.num (PyFloat.fin 50000)) }

/-- A market order that omits `price` but has valid symbol, side, kind and
quantity. -/
def vMarketNoPrice : Ingest.RawOrder :=
  { orderId := some (JVal.str "test-1"), symbol := some (JVal.str "BTC-USD"),
    side := some (JVal.str "BUY"), quantity := some (JVal.num (PyFloat.fin (1/2))),
    order_type := some (JVal.str "market") }

/-- An otherwise valid body whose quantity is the numeric string `"nan"`. -/
def vNan : Ingest.RawOrder :=
  { orderId := some (JVal.str "test-2"), symbol := some (JVal.str "BTC-USD"),
    side := some (JVal.str "BUY"), quantity := some (JVal.str "nan"),
    price := some (JVal.num (PyFloat.fin 50000)) }

/-- A sample trade for the effect-ordering theorems. -/
def exTrade : Trade :=
  { pair := "BTCUSD", price := 100, amount := 1, buyOrderId := "B", sellOrderId := "S",
    buyUserId := "unknown", sellUserId := "unknown" }

/-- Resting maker for the maker-price witness: `sell limit 2.0 @ 95`. -/
def mpSell : Order :=
  { orderId := "MS", pair := "BTCUSD", side := "SELL", price := 95, amount := 2, userId := none }

/-- Taker for the maker-price witness: `buy limit 1.0 @ 100`. -/
def mpBuy : Order :=
  { orderId := "MB", pair := "BTCUSD", side := "BUY", price := 100, amount := 1, userId := none }

/-- The trade the matcher emits for `mpSell` then `mpBuy`: quantity 1.0 at
the maker's price 95. -/
def mpTrade : Trade :=
  { pair := "BTCUSD", price := 95, amount := 1, buyOrderId := "MB", sellOrderId := "MS",
    buyUserId := "unknown", sellUserId := "unknown" }

/-! Helper lemmas about the book-query functions. -/

namespace Matcher

/-- The member returned by a range query is in the queried list. -/
theorem zMinEntry_mem : ∀ {l : List Order} {m : Order}, zMinEntry l = some m → m ∈ l := by
  intro l
  induction l with
  | nil => intro m h; simp [zMinEntry] at h
  | cons o rest ih =>
    intro m h
    rw [zMinEntry] at h
    cases hz : zMinEntry rest with
    | none => rw [hz] at h; simp at h; simp [h]
    | some m2 =>
      rw [hz] at h
      by_cases hk : keyLt m2 o
      · simp [hk] at h
        subst h
        exact List.mem_cons_of_mem o (ih hz)
      · simp [hk] at h
        simp [h]

/-- The member returned by a reverse range query is in the queried list. -/
theorem zMaxEntry_mem : ∀ {l : List Order} {m : Order}, zMaxEntry l = some m → m ∈ l := by
  intro l
  induction l with
  | nil => intro m h; simp [zMaxEntry] at h
  | cons o rest ih =>
    intro m h
    rw [zMaxEntry] at h
    cases hz : zMaxEntry rest with
    | none => rw [hz] at h; simp at h; simp [h]
    | some m2 =>
      rw [hz] at h
      by_cases hk : keyLt o m2
      · simp [hk] at h
        subst h
        exact List.mem_cons_of_mem o (ih hz)
      · simp [hk] at h
        simp [h]

/-- The trades emitted by `process_order` are exactly those of the side
matcher selected by the upper-cased side. -/
theorem process_order_trades (st : Books) (o : Order) :
    (process_order st o).2 =
      if upperStr o.side = "BUY" then (match_buy_order st o).2.2
      else (match_sell_order st o).2.2 := by
  by_cases h : upperStr o.side = "BUY" <;>
    simp only [process_order, h, if_true, if_false, reduceIte] <;> split <;> rfl

/-- Any trade emitted by `match_buy_order` carries the price and order id
of a crossing member of the sell book. -/
theorem match_buy_order_trade (st : Books) (b : Order) (t : Trade)
    (ht : t ∈ (match_buy_order st b).2.2) :
    ∃ m, m ∈ st.sells ∧ m.price ≤ b.price ∧ t.price = m.price ∧
      t.sellOrderId = m.orderId := by
  unfold match_buy_order at ht
  cases hz : zMinEntry (st.sells.filter fun m =>
      decide (0 ≤ m.price) && decide (m.price ≤ b.price)) with
  | none => rw [hz] at ht; simp at ht
  | some m =>
    rw [hz] at ht
    simp at ht
    have hm := zMinEntry_mem hz
    rw [List.mem_filter] at hm
    obtain ⟨hmem, hcond⟩ := hm
    simp only [Bool.and_eq_true, decide_eq_true_eq] at hcond
    exact ⟨m, hmem, hcond.2, by rw [ht], by rw [ht]⟩

/-- Any trade emitted by `match_sell_order` carries the price and order id
of a crossing member of the buy book. -/
theorem match_sell_order_trade (st : Books) (s : Order) (t : Trade)
    (ht : t ∈ (match_sell_order st s).2.2) :
    ∃ m, m ∈ st.buys ∧ s.price ≤ m.price ∧ t.price = m.price ∧
      t.buyOrderId = m.orderId := by
  unfold match_sell_order at ht
  cases hz : zMaxEntry (st.buys.filter fun m => decide (s.price ≤ m.price)) with
  | none => rw [hz] at ht; simp at ht
  | some m =>
    rw [hz] at ht
    simp at ht
    have hm := zMaxEntry_mem hz
    rw [List.mem_filter] at hm
    obtain ⟨hmem, hcond⟩ := hm
    simp only [decide_eq_true_eq] at hcond
    exact ⟨m, hmem, hcond, by rw [ht], by rw [ht]⟩

end Matcher

/-! Claim theorems. -/

/-- C1: the claim says an incoming limit order keeps trading against
successive best makers while quantity remains and a cross exists, so the
S4 input should produce three trades.  The code matches against at most
one resting maker per incoming order: the S4 sequence (sell 0.3 @ 100,
sell 0.5 @ 101, sell 0.4 @ 102, then buy 1.0 @ 102) produces exactly one
trade (0.3 @ 100), and the 0.7 remainder of the buy is parked on the buy
book instead of being matched against the remaining sells. -/
theorem c1_single_best_maker_only :
    (Matcher.processAll [s4Sell1, s4Sell2, s4Sell3, s4Buy]).2 =
      [{ pair := "BTCUSD", price := 100, amount := 3/10, buyOrderId := "B1",
         sellOrderId := "S1", buyUserId := "unknown", sellUserId := "unknown" }] ∧
    (Matcher.processAll [s4Sell1, s4Sell2, s4Sell3, s4Buy]).1 =
      { buys := [{ s4Buy with amount := 7/10 }], sells := [s4Sell2, s4Sell3] } := by
  with_unfolding_all decide

/-- C2: the claim says a duplicate `order_id` is detected and
short-circuits dispatch with no trades and no state change.  The code has
no idempotency check: submitting `dupBuy` (id `X`) a second time after it
fully traded against `dupSell` re-runs matching, and the duplicate ends
up resting on the buy book, so the final book state differs from
processing the first submission alone. -/
theorem c2_duplicate_not_short_circuited :
    (Matcher.processAll [dupSell, dupBuy]).1.buys = [] ∧
    (Matcher.processAll [dupSell, dupBuy, dupBuy]).1.buys = [dupBuy] ∧
    (Matcher.processAll [dupSell, dupBuy, dupBuy]).1 ≠
      (Matcher.processAll [dupSell, dupBuy]).1 := by
  with_unfolding_all decide

/-- C3: every trade emitted by the matcher carries the resting (maker)
order's price: a buy taker trades at the price of a crossing member of
the sell book, and a sell taker at the price of a crossing member of the
buy book, that member also supplying the counterparty order id. -/
theorem c3_trade_at_maker_price (st : Books) (o : Order) (t : Trade)
    (ht : t ∈ (Matcher.process_order st o).2) :
    (upperStr o.side = "BUY" →
      ∃ m, m ∈ st.sells ∧ m.price ≤ o.price ∧ t.price = m.price ∧
        t.sellOrderId = m.orderId) ∧
    (upperStr o.side ≠ "BUY" →
      ∃ m, m ∈ st.buys ∧ o.price ≤ m.price ∧ t.price = m.price ∧
        t.buyOrderId = m.orderId) := by
  constructor
  · intro hb
    rw [Matcher.process_order_trades, if_pos hb] at ht
    exact Matcher.match_buy_order_trade st o t ht
  · intro hb
    rw [Matcher.process_order_trades, if_neg hb] at ht
    exact Matcher.match_sell_order_trade st o t ht

/-- Witness for C3 at a concrete input: a resting sell 2.0 @ 95 crossed
by a buy 1.0 @ 100 trades at the maker's price 95. -/
theorem c3_trade_at_maker_price_witness :
    (upperStr mpBuy.side = "BUY" →
      ∃ m, m ∈ (Books.mk [] [mpSell]).sells ∧ m.price ≤ mpBuy.price ∧
        mpTrade.price = m.price ∧ mpTrade.sellOrderId = m.orderId) ∧
    (upperStr mpBuy.side ≠ "BUY" →
      ∃ m, m ∈ (Books.mk [] [mpSell]).buys ∧ mpBuy.price ≤ m.price ∧
        mpTrade.price = m.price ∧ mpTrade.buyOrderId = m.orderId) :=
  c3_trade_at_maker_price (Books.mk [] [mpSell]) mpBuy mpTrade (by with_unfolding_all decide)

/-- C4: the claim says quantity is conserved: trades plus final resting
quantity equal the original quantity.  On a partial maker fill the code
`ZADD`s the updated member without removing the original one, so after
sell 1.0 @ 100 (id `M`) is partially filled by buy 0.25 @ 100, the sell
book holds both the stale 1.0 member and the 0.75 remainder, and M's
traded quantity plus resting quantity is 2.0 instead of 1.0. -/
theorem c4_quantity_not_conserved :
    (Matcher.processAll [consSell, consBuy]).1.sells =
      [consSell, { consSell with amount := 3/4 }] ∧
    Matcher.tradedQty "M" (Matcher.processAll [consSell, consBuy]).2 = 1/4 ∧
    Matcher.restingQty "M" (Matcher.processAll [consSell, consBuy]).1 = 7/4 ∧
    Matcher.tradedQty "M" (Matcher.processAll [consSell, consBuy]).2 +
      Matcher.restingQty "M" (Matcher.processAll [consSell, consBuy]).1 ≠
        consSell.amount := by
  with_unfolding_all decide

/-- C9: `execute_trade` publishes the trade event only after the durable
DynamoDB write has succeeded: whenever the outbound publish effect
occurs, both calls succeeded and the effect sequence is exactly the
durable write, then the publish, then the last-price update. -/
theorem c9_durable_write_before_publish (saveOk sendOk : Bool) (t : Trade)
    (h : Matcher.Effect.sendTrade t ∈ (Matcher.execute_trade saveOk sendOk t).1) :
    saveOk = true ∧ sendOk = true ∧
    (Matcher.execute_trade saveOk sendOk t).1 =
      [Matcher.Effect.saveDynamo t, Matcher.Effect.sendTrade t,
       Matcher.Effect.setLastPrice t.pair t.price] := by
  cases saveOk <;> cases sendOk <;> simp_all [Matcher.execute_trade]

/-- Witness for C9 at a concrete trade with both external calls
succeeding. -/
theorem c9_durable_write_before_publish_witness :
    true = true ∧ true = true ∧
    (Matcher.execute_trade true true exTrade).1 =
      [Matcher.Effect.saveDynamo exTrade, Matcher.Effect.sendTrade exTrade,
       Matcher.Effect.setLastPrice exTrade.pair exTrade.price] :=
  c9_durable_write_before_publish true true exTrade (by decide)

/-- C5 counterexample: the claim says the earlier-accepted order A is
matched first among equal-priced resting orders.  With A (id `ZZZ`)
submitted before B (id `AAA`) at the same price, the incoming buy trades
against B, because Redis breaks score ties by byte-wise member
comparison and B's serialization sorts first — as the spec's own design
notes (§9) observe about the source. -/
theorem c5_time_priority_counterexample :
    ((Matcher.processAll [tieA, tieB, tieTaker]).2.map Trade.sellOrderId) = ["AAA"] ∧
    tieA.orderId = "ZZZ" ∧
    ((Matcher.processAll [tieA, tieB, tieTaker]).2.map Trade.sellOrderId) ≠
      [tieA.orderId] := by
  with_unfolding_all decide

/-- C5 amended: among two equal-priced resting sells that both cross an
incoming buy, the matcher trades against the one whose serialized
sorted-set member is byte-wise smaller, regardless of submission order. -/
theorem c5_tie_broken_by_serialization (a b t : Order)
    (hside : upperStr t.side = "BUY")
    (hp : a.price = b.price) (hpt : b.price ≤ t.price) (h0 : 0 ≤ a.price) :
    ((Matcher.process_order (Books.mk [] [a, b]) t).2.map Trade.sellOrderId) =
      [(if serializeOrder b < serializeOrder a then b else a).orderId] := by
  have hpa : a.price ≤ t.price := by rw [hp]; exact hpt
  have h0b : (0 : Rat) ≤ b.price := by rw [← hp]; exact h0
  by_cases hbs : serializeOrder b < serializeOrder a <;>
    simp [Matcher.process_order_trades, hside, Matcher.match_buy_order,
      Matcher.zMinEntry, Matcher.keyLt, List.filter, h0, hpa, h0b, hpt, hp, hbs]

/-- Witness for the amended C5 at the concrete tie input: the trade names
`AAA`, the lexicographically smaller member. -/
theorem c5_tie_broken_by_serialization_witness :
    ((Matcher.process_order (Books.mk [] [tieA, tieB]) tieTaker).2.map Trade.sellOrderId) =
      [(if serializeOrder tieB < serializeOrder tieA then tieB else tieA).orderId] :=
  c5_tie_broken_by_serialization tieA tieB tieTaker (by decide) (by decide)
    (by decide) (by decide)

/-- C6: the claim says `validate` requires `price` exactly when the order
kind is `Limit`, accepting a market order that omits it.  The shipped
validator lists `price` among the unconditionally required fields and
never reads the order kind, so a market order without a price is
rejected with the missing-field error — contradicting the repository's
own test `tests/test_ingest.py::test_valid_market_order`. -/
theorem c6_market_order_price_required :
    Ingest.validate_order vMarketNoPrice =
      (false, "Missing required field: price") ∧
    vMarketNoPrice.order_type = some (JVal.str "market") ∧
    vMarketNoPrice.price = none :=
  ⟨rfl, rfl, rfl⟩

/-- C7 counterexample: the claim says a market order hitting an empty
book is rejected with `NoLiquidity` (an acknowledged rejection).  The
matcher has no market-order path at all: reading the absent `price` key
raises, the record is reported as a batch item failure (so the broker
will redeliver it), and no rejection is ever produced. -/
theorem c7_no_liquidity_rejection_counterexample :
    Matcher.process_order_raw (Books.mk [] []) mktRaw =
      Except.error "KeyError: price" ∧
    Matcher.lambda_handler (Books.mk [] []) [("msg-1", mktRaw)] =
      (Books.mk [] [], [], ["msg-1"]) :=
  ⟨rfl, rfl⟩

/-- C7 amended: a market order (a record without the `price` key)
produces no trades and leaves the books unchanged, but instead of a
`NoLiquidity` rejection the matcher raises a missing-price `KeyError`
and the record is reported as a batch item failure, to be redelivered. -/
theorem c7_market_order_missing_price (st : Books)
    (r : Matcher.RawMatcherOrder) (msgId : String)
    (hpair : r.pair.isSome = true) (hside : r.side.isSome = true)
    (hprice : r.price = none) :
    Matcher.process_order_raw st r = Except.error "KeyError: price" ∧
    Matcher.lambda_handler st [(msgId, r)] = (st, [], [msgId]) := by
  obtain ⟨pr, hpr⟩ := Option.isSome_iff_exists.mp hpair
  obtain ⟨sd, hsd⟩ := Option.isSome_iff_exists.mp hside
  have h1 : Matcher.process_order_raw st r = Except.error "KeyError: price" := by
    unfold Matcher.process_order_raw
    rw [hpr, hsd, hprice]
  refine ⟨h1, ?_⟩
  unfold Matcher.lambda_handler
  simp [h1]

/-- Witness for the amended C7 at the concrete market-order record. -/
theorem c7_market_order_missing_price_witness :
    Matcher.process_order_raw (Books.mk [] []) mktRaw =
      Except.error "KeyError: price" ∧
    Matcher.lambda_handler (Books.mk [] []) [("m1", mktRaw)] =
      (Books.mk [] [], [], ["m1"]) :=
  c7_market_order_missing_price (Books.mk [] []) mktRaw "m1" rfl rfl rfl

/-- C8 counterexample: the claim says validation rejects NaN.  An
otherwise valid order whose quantity is the numeric string `"nan"`
parses to NaN, for which `quantity <= 0` is false, so the validator
accepts the order. -/
theorem c8_nan_accepted_counterexample :
    Ingest.validate_order vNan = (true, "OK") ∧
    vNan.quantity = some (JVal.str "nan") ∧
    floatOf (JVal.str "nan") = some PyFloat.nan := by
  with_unfolding_all decide

/-- C8 amended: the validator accepts exactly the orders described by
`validate_accepts_amended`: all five fields present, side `BUY`/`SELL`,
quantity and price numeric (native numbers or numeric strings) and not
`<= 0` under IEEE comparison — so positive finite values are accepted,
non-positive and non-numeric values are rejected, but NaN and +infinity
are accepted as well — and a symbol that is a non-blank string. -/
theorem c8_validation_acceptance (o : Ingest.RawOrder) :
    (Ingest.validate_order o).1 = Ingest.validate_accepts_amended o := by
  rcases o with ⟨oid, sy, sd, qv, pv, ts, ot⟩
  rcases oid with _ | oidv
  · simp [Ingest.validate_order, Ingest.validate_accepts_amended]
  rcases sy with _ | syv
  · simp [Ingest.validate_order, Ingest.validate_accepts_amended]
  rcases sd with _ | sdv
  · simp [Ingest.validate_order, Ingest.validate_accepts_amended]
  rcases qv with _ | qvv
  · simp [Ingest.validate_order, Ingest.validate_accepts_amended]
  rcases pv with _ | pvv
  · simp [Ingest.validate_order, Ingest.validate_accepts_amended]
  by_cases hs : (sdv == JVal.str "BUY" || sdv == JVal.str "SELL") = true
  · cases hq : floatOf qvv with
    | none => simp [Ingest.validate_order, Ingest.validate_accepts_amended, hs, hq]
    | some q =>
      cases hp : floatOf pvv with
      | none => simp [Ingest.validate_order, Ingest.validate_accepts_amended, hs, hq, hp]
      | some p =>
        by_cases hq0 : pyLe0 q = true
        · simp [Ingest.validate_order, Ingest.validate_accepts_amended, hs, hq, hp, hq0]
        · by_cases hp0 : pyLe0 p = true
          · simp [Ingest.validate_order, Ingest.validate_accepts_amended,
              hs, hq, hp, hq0, hp0]
          · cases syv with
            | str s =>
              by_cases htr : s.trim = ""
              · simp [Ingest.validate_order, Ingest.validate_accepts_amended,
                  hs, hq, hp, hq0, hp0, htr]
              · simp [Ingest.validate_order, Ingest.validate_accepts_amended,
                  hs, hq, hp, hq0, hp0, htr]
            | num x =>
              simp [Ingest.validate_order, Ingest.validate_accepts_amended,
                hs, hq, hp, hq0, hp0]
            | bool bb =>
              simp [Ingest.validate_order, Ingest.validate_accepts_amended,
                hs, hq, hp, hq0, hp0]
            | null =>
              simp [Ingest.validate_order, Ingest.validate_accepts_amended,
                hs, hq, hp, hq0, hp0]
  · simp [Ingest.validate_order, Ingest.validate_accepts_amended, hs]

/-- C10: for a body that validates, with the Kinesis publish succeeding
and the audit table configured, a failing DynamoDB audit write leaves
the response identical to the all-success case — status 200 with the
order id — and the failure is only logged. -/
theorem c10_audit_failure_keeps_success (b : Ingest.RawOrder) (genId : String)
    (hv : (Ingest.validate_order b).1 = true) :
    (Ingest.lambda_handler (some b) genId true true false).1.statusCode = 200 ∧
    (Ingest.lambda_handler (some b) genId true true false).1 =
      (Ingest.lambda_handler (some b) genId true true true).1 ∧
    Ingest.IngestEffect.logDynamoFailure ∈
      (Ingest.lambda_handler (some b) genId true true false).2 := by
  unfold Ingest.lambda_handler
  simp [hv]

/-- Witness for C10 at a concrete valid body. -/
theorem c10_audit_failure_keeps_success_witness :
    (Ingest.lambda_handler (some vOk) "gen-1" true true false).1.statusCode = 200 ∧
    (Ingest.lambda_handler (some vOk) "gen-1" true true false).1 =
      (Ingest.lambda_handler (some vOk) "gen-1" true true true).1 ∧
    Ingest.IngestEffect.logDynamoFailure ∈
      (Ingest.lambda_handler (some vOk) "gen-1" true true false).2 :=
  c10_audit_failure_keeps_success vOk "gen-1" (by with_unfolding_all decide)

end BradBid
